import Mathlib

/-!
Shallow embedding of the work-order controller of the PhoenixCRM repository
(src/src/server/controllers/workOrderController.js).

Modelling conventions:
* JavaScript numbers are modelled as rationals (exact arithmetic; the claims
  under study are algebraic identities over sums and products).
* Strings that are only compared for equality (statuses, communication
  preferences, phone numbers) are modelled as Lean `String`; strings that are
  split, trimmed and joined (service descriptions, `serviceRequested`) are
  modelled as `List Char` so that the split/join algebra is explicit.
* Dates are opaque day stamps (`Nat`); `new Date()` is passed in as `today`.
* Mongo documents live in in-memory lists keyed by a numeric id; `findById`
  is `List.find?` on the id, and a Mongoose `save`/`findByIdAndUpdate`
  replaces the document with the matching id.
* The operational-error object (utils/appError.js, not under src/) is
  modelled from the spec: an error carrying an HTTP status code and message,
  serialized by the central handler.  `catchAsync` plumbing is implicit in
  the result type.
* The Twilio client (services/twilioService.js, not under src/) is modelled
  from the spec as a call that either succeeds or throws; the `smsFails`
  flag selects which.  Handlers instrument a trace of side-effect events so
  that ordering and attempted-notification claims are statable.
-/

namespace PhoenixCRM

/-- Character-list strings, used where the controller splits/trims/joins. -/
abbrev Str := List Char

/-- Model of a JavaScript value appearing in a loosely typed request field
(`currentMileage` may arrive as a number, a string, or be absent). -/
inductive JsVal where
  | undef : JsVal
  | num : ℚ → JsVal
  | str : Str → JsVal
deriving DecidableEq, Repr

/-- JavaScript truthiness for `JsVal`: `undefined`, `0` and the empty string
are falsy. -/
def JsVal.truthy : JsVal → Bool
  | .undef => false
  | .num q => q != 0
  | .str s => !s.isEmpty

/-- Integer value of a digit run (most significant first). -/
def natDigitsVal (ds : Str) : ℚ :=
  ds.foldl (fun acc c => 10 * acc + ((c.toNat : ℚ) - 48)) 0

/-- Fractional value of a digit run after the decimal point. -/
def fracDigitsVal (ds : Str) : ℚ :=
  ds.foldr (fun c acc => (acc + ((c.toNat : ℚ) - 48)) / 10) 0

/-- Modelled from the spec and the ECMAScript behaviour of `parseFloat` on
the decimal fragment used by the controller: skip leading whitespace, an
optional sign, an integer digit run and an optional fractional digit run
(prefix semantics; exponents and `Infinity` are outside the model).  `none`
stands for `NaN`. -/
def parseFloatStr (s : Str) : Option ℚ :=
  let t := s.dropWhile Char.isWhitespace
  let neg := t.head? = some '-'
  let t2 := if t.head? = some '-' || t.head? = some '+' then t.tail else t
  let intDigits := t2.takeWhile Char.isDigit
  let rest := t2.dropWhile Char.isDigit
  let fracDigits :=
    if rest.head? = some '.' then rest.tail.takeWhile Char.isDigit else []
  if intDigits.isEmpty && fracDigits.isEmpty then none
  else
    let magnitude := natDigitsVal intDigits + fracDigitsVal fracDigits
    some (if neg then -magnitude else magnitude)

/-- JavaScript `parseFloat` applied to a request field. -/
def JsVal.parseFloat : JsVal → Option ℚ
  | .undef => none
  | .num q => some q
  | .str s => parseFloatStr s

/-- Truthiness of an optional numeric field (`!workOrderData.totalEstimate`):
absent and zero are falsy. -/
def qTruthy : Option ℚ → Bool
  | none => false
  | some q => q != 0

/-- Truthiness of an optional string field: absent and empty are falsy. -/
def strTruthy : Option String → Bool
  | none => false
  | some s => s != ""

/-- One entry of the `services` array of a work order. -/
structure Service where
  description : Str
deriving DecidableEq, Repr

/-- One parts line of a work order. -/
structure PartLine where
  price : ℚ
  quantity : ℚ
deriving DecidableEq, Repr

/-- One labor line of a work order. -/
structure LaborLine where
  hours : ℚ
  rate : ℚ
deriving DecidableEq, Repr

/-- One entry of a vehicle mileage history. -/
structure MileageEntry where
  date : Nat
  mileage : ℚ
  source : Str
deriving DecidableEq, Repr

/-- A vehicle document (the fields the work-order controller touches). -/
structure Vehicle where
  id : Nat
  customer : Nat
  serviceHistory : List Nat
  mileageHistory : List MileageEntry
  currentMileage : Option ℚ
deriving DecidableEq, Repr

/-- A customer document (the fields the work-order controller touches). -/
structure Customer where
  id : Nat
  communicationPreference : String
  phone : String
  email : String
deriving DecidableEq, Repr

/-- A work-order document. -/
structure WorkOrder where
  id : Nat
  customer : Nat
  vehicle : Nat
  date : Option Nat
  status : String
  services : List Service
  serviceRequested : Str
  parts : List PartLine
  labor : List LaborLine
  totalEstimate : Option ℚ
  totalActual : Option ℚ
deriving DecidableEq, Repr

/-- The document store. -/
structure DB where
  customers : List Customer
  vehicles : List Vehicle
  workOrders : List WorkOrder
  nextId : Nat
deriving DecidableEq, Repr

/-- First document satisfying a predicate (findById scan over a collection). -/
def findDoc {α : Type} (p : α → Bool) : List α → Option α
  | [] => none
  | x :: xs => if p x then some x else findDoc p xs

/-- Customer.findById. -/
def DB.findCustomer (db : DB) (i : Nat) : Option Customer :=
  findDoc (fun c => c.id == i) db.customers

/-- Vehicle.findById. -/
def DB.findVehicle (db : DB) (i : Nat) : Option Vehicle :=
  findDoc (fun v => v.id == i) db.vehicles

/-- WorkOrder.findById. -/
def DB.findWorkOrder (db : DB) (i : Nat) : Option WorkOrder :=
  findDoc (fun w => w.id == i) db.workOrders

/-- Persist a vehicle document (replace by id). -/
def DB.saveVehicle (db : DB) (v : Vehicle) : DB :=
  { db with vehicles := db.vehicles.map (fun w => if w.id == v.id then v else w) }

/-- Persist a work-order document (replace by id). -/
def DB.saveWorkOrder (db : DB) (wo : WorkOrder) : DB :=
  { db with workOrders := db.workOrders.map (fun w => if w.id == wo.id then wo else w) }

/-- Parts cost: `parts.reduce((total, part) => total + part.price * part.quantity, 0)`. -/
def partsCost (parts : List PartLine) : ℚ :=
  parts.foldl (fun total part => total + part.price * part.quantity) 0

/-- Labor cost: `labor.reduce((total, labor) => total + labor.hours * labor.rate, 0)`. -/
def laborCost (labor : List LaborLine) : ℚ :=
  labor.foldl (fun total l => total + l.hours * l.rate) 0

/-- JavaScript `String.prototype.trim`. -/
def trimChars (s : Str) : Str :=
  ((s.dropWhile Char.isWhitespace).reverse.dropWhile Char.isWhitespace).reverse

/-- The multi-line branch of the `serviceRequested` to `services` conversion:
`serviceRequested.split('\n').filter(line => line.trim()).map(line => (description: line.trim()))`. -/
def splitServiceRequested (sr : Str) : List Service :=
  ((List.splitOn '\n' sr).filter (fun line => !(trimChars line).isEmpty)).map
    (fun line => ⟨trimChars line⟩)

/-- Conversion of a `serviceRequested` string into a `services` array, as in
createWorkOrder lines 111-121 and updateWorkOrder lines 211-221: split on
newlines when one is present, otherwise a single raw-string service. -/
def requestedToServices (sr : Str) : List Service :=
  if ('\n' : Char) ∈ sr then splitServiceRequested sr else [⟨sr⟩]

/-- Generated `serviceRequested`: `services.map(s => s.description).join('\n')`. -/
def joinDescriptions (services : List Service) : Str :=
  (['\n'] : Str).intercalate (services.map (·.description))

/-- JavaScript `String.prototype.includes` on character lists. -/
def containsSub (s pat : Str) : Bool :=
  (List.range (s.length + 1)).any (fun i => pat.isPrefixOf (s.drop i))

/-- The source string written into a mileage-history entry. -/
def mileageSource (woId : Nat) : Str :=
  ("Work Order #".data) ++ (toString woId).data

/-- The five statuses on which updateWorkOrder notifies the customer. -/
def notifiableStatuses : List String :=
  ["Inspected - Need Parts Ordered", "Parts Received", "Repair In Progress",
   "Completed - Need Payment", "Completed - Paid"]

/-- Modelled from the spec: `twilioService.sendStatusUpdate` either succeeds
or throws; the `fails` flag selects the behaviour of the collaborator. -/
def twilioSendStatusUpdate (fails : Bool) : Except String Unit :=
  if fails then .error "twilio send failed" else .ok ()

/-- Result of a handler: a success response or an operational error carrying
an HTTP status code and message. -/
inductive HResult where
  | ok : Nat → HResult
  | err : Nat → String → HResult
deriving DecidableEq, Repr

/-- Side-effect events instrumenting the status/side-effect pipeline. -/
inductive Event where
  | statusWrite : Event
  | recalcTotal : Event
  | notifySMS : Event
  | mileageSync : Event
deriving DecidableEq, Repr

/-- Output of a handler without an instrumented trace. -/
structure Out where
  res : HResult
  db : DB
deriving DecidableEq, Repr

/-- Output of a traced handler. -/
structure TOut where
  res : HResult
  db : DB
  trace : List Event
deriving DecidableEq, Repr

/-- Request body of createWorkOrder (the fields the handler reads).  A `none`
field is absent from the JSON body. -/
structure CreateReq where
  customer : Nat
  vehicle : Nat
  services : Option (List Service)
  serviceRequested : Option Str
  parts : Option (List PartLine)
  labor : Option (List LaborLine)
  totalEstimate : Option ℚ
  currentMileage : JsVal
  date : Option Nat
deriving DecidableEq, Repr

/-- Services normalization of createWorkOrder (lines 106-140): when the
services array is absent or empty, a truthy `serviceRequested` is converted;
when the resulting array is non-empty, `serviceRequested` is regenerated by
joining the descriptions with newlines. -/
def normalizeServicesCreate (services? : Option (List Service)) (sr? : Option Str) :
    List Service × Option Str :=
  let services :=
    if services?.getD [] = [] then
      match sr? with
      | some sr => if sr.isEmpty then [] else requestedToServices sr
      | none => []
    else services?.getD []
  let sr' := if services.isEmpty then sr? else some (joinDescriptions services)
  (services, sr')

/-- Total-estimate computation of createWorkOrder (lines 142-161).  Note the
guard `if (!workOrderData.totalEstimate)` in front of BOTH assignments: once
the parts branch has stored a non-zero parts cost, the labor branch is
skipped. -/
def createTotals (parts? : Option (List PartLine)) (labor? : Option (List LaborLine))
    (te? : Option ℚ) : Option ℚ :=
  let te1 :=
    if parts?.getD [] ≠ [] then
      if qTruthy te? then te? else some (partsCost (parts?.getD []))
    else te?
  if labor?.getD [] ≠ [] then
    if qTruthy te1 then te1 else some (te1.getD 0 + laborCost (labor?.getD []))
  else te1

/-- createWorkOrder (lines 85-189).  Validates the vehicle/customer pair,
normalizes services and totals, inserts the work order (fresh id `db.nextId`,
schema default status modelled from the spec as Created), then updates the
vehicle service history and, when `currentMileage` is truthy and parses,
its mileage history and current mileage. -/
def createWorkOrder (db : DB) (req : CreateReq) (today : Nat) : Out :=
  match db.findVehicle req.vehicle with
  | none => ⟨.err 404 "No vehicle found with that ID", db⟩
  | some vehicle =>
    match db.findCustomer req.customer with
    | none => ⟨.err 404 "No customer found with that ID", db⟩
    | some customer =>
      if vehicle.customer ≠ customer.id then
        ⟨.err 400 "The vehicle does not belong to this customer", db⟩
      else
        let (services, sr') := normalizeServicesCreate req.services req.serviceRequested
        let te := createTotals req.parts req.labor req.totalEstimate
        let woId := db.nextId
        let wo : WorkOrder :=
          { id := woId, customer := req.customer, vehicle := req.vehicle,
            date := req.date, status := "Created", services := services,
            serviceRequested := sr'.getD [], parts := req.parts.getD [],
            labor := req.labor.getD [], totalEstimate := te, totalActual := none }
        let db1 : DB :=
          { db with workOrders := db.workOrders ++ [wo], nextId := db.nextId + 1 }
        let vehicle1 :=
          { vehicle with serviceHistory := vehicle.serviceHistory ++ [woId] }
        let vehicle2 :=
          if req.currentMileage.truthy then
            match req.currentMileage.parseFloat with
            | some m =>
              { vehicle1 with
                mileageHistory := vehicle1.mileageHistory ++
                  [⟨req.date.getD today, m, mileageSource woId⟩],
                currentMileage := some m }
            | none => vehicle1
          else vehicle1
        ⟨.ok 201, db1.saveVehicle vehicle2⟩

/-- Notification step of updateStatus (lines 473-494): attempt an SMS when
the populated customer exists, has a communication preference other than
None, prefers SMS and has a phone; a throwing send is caught.  Returns the
attempted-notification trace. -/
def statusNotify (db1 : DB) (wo2 : WorkOrder) (smsFails : Bool) : List Event :=
  match db1.findCustomer wo2.customer with
  | some c =>
    if c.communicationPreference ≠ "None" ∧
        c.communicationPreference = "SMS" ∧ c.phone ≠ "" then
      match twilioSendStatusUpdate smsFails with
      | .ok _ => [Event.notifySMS]
      | .error _ => [Event.notifySMS]
    else []
  | none => []

/-- updateStatus (lines 427-502): 400 on a falsy status, 404 when the work
order is missing; otherwise write the status, recompute totalActual when the
new status is Completed - Paid or Invoiced, save, and then attempt an SMS
notification (a throwing send is caught and does not affect the response). -/
def updateStatus (db : DB) (woId : Nat) (status? : Option String) (smsFails : Bool) :
    TOut :=
  if !strTruthy status? then ⟨.err 400 "Please provide a status", db, []⟩
  else
    let status := status?.getD ""
    match db.findWorkOrder woId with
    | none => ⟨.err 404 "No work order found with that ID", db, []⟩
    | some wo =>
      let wo1 := { wo with status := status }
      let recalc := status = "Completed - Paid" ∨ status = "Invoiced"
      let wo2 :=
        if recalc then
          { wo1 with totalActual := some (partsCost wo1.parts + laborCost wo1.labor) }
        else wo1
      let db1 := db.saveWorkOrder wo2
      ⟨.ok 200, db1,
        [Event.statusWrite] ++ (if recalc then [Event.recalcTotal] else [])
          ++ statusNotify db1 wo2 smsFails⟩

/-- addPart (lines 505-548): push the part, then recompute totalEstimate as
parts cost plus labor cost. -/
def addPart (db : DB) (woId : Nat) (part : PartLine) : Out :=
  match db.findWorkOrder woId with
  | none => ⟨.err 404 "No work order found with that ID", db⟩
  | some wo =>
    let parts1 := wo.parts ++ [part]
    let wo1 :=
      { wo with
        parts := parts1,
        totalEstimate := some (partsCost parts1 + laborCost wo.labor) }
    ⟨.ok 200, db.saveWorkOrder wo1⟩

/-- addLabor (lines 551-594): push the labor line, then recompute
totalEstimate as parts cost plus labor cost. -/
def addLabor (db : DB) (woId : Nat) (l : LaborLine) : Out :=
  match db.findWorkOrder woId with
  | none => ⟨.err 404 "No work order found with that ID", db⟩
  | some wo =>
    let labor1 := wo.labor ++ [l]
    let wo1 :=
      { wo with
        labor := labor1,
        totalEstimate := some (partsCost wo.parts + laborCost labor1) }
    ⟨.ok 200, db.saveWorkOrder wo1⟩

/-- Request body of updateWorkOrder (the fields the handler reads). -/
structure UpdateReq where
  services : Option (List Service)
  serviceRequested : Option Str
  parts : Option (List PartLine)
  labor : Option (List LaborLine)
  totalEstimate : Option ℚ
  currentMileage : JsVal
  status : Option String
  date : Option Nat
deriving DecidableEq, Repr

/-- Services normalization of updateWorkOrder (lines 197-221): a present
services array (even empty) regenerates `serviceRequested`; otherwise a
truthy `serviceRequested` is converted into a services array. -/
def normalizeServicesUpdate (services? : Option (List Service)) (sr? : Option Str) :
    Option (List Service) × Option Str :=
  match services? with
  | some services => (some services, some (joinDescriptions services))
  | none =>
    match sr? with
    | some sr => if sr.isEmpty then (none, sr?) else (some (requestedToServices sr), sr?)
    | none => (none, none)

/-- Total recalculation block of updateWorkOrder (lines 224-270).  Returns
the (possibly updated) totalEstimate field of the update data together with
a recalcTotal event when an assignment ran, or the 404 error when parts or
labor are present but the work order is missing. -/
def updateTotals (db : DB) (woId : Nat) (parts? : Option (List PartLine))
    (labor? : Option (List LaborLine)) (te? : Option ℚ) :
    Except HResult (Option ℚ × List Event) :=
  if parts?.isSome || labor?.isSome then
    match db.findWorkOrder woId with
    | none => .error (.err 404 "No work order found with that ID")
    | some wo =>
      let (te1, ev1) :=
        if parts?.isSome then
          if qTruthy te? then (te?, ([] : List Event))
          else
            let lc :=
              match labor? with
              | some labor => laborCost labor
              | none => laborCost wo.labor
            (some (partsCost (parts?.getD []) + lc), [Event.recalcTotal])
        else (te?, [])
      let (te2, ev2) :=
        if labor?.isSome then
          if qTruthy te1 then (te1, ([] : List Event))
          else
            let pc :=
              match parts? with
              | some parts => partsCost parts
              | none => partsCost wo.parts
            (some (pc + laborCost (labor?.getD [])), [Event.recalcTotal])
        else (te1, [])
      .ok (te2, if ev1 ++ ev2 = [] then [] else [Event.recalcTotal])
  else .ok (te?, [])

/-- Vehicle mileage sync of updateWorkOrder (lines 274-298): when
`currentMileage` is truthy and parses, look up the work order and its
vehicle, append a mileage-history entry unless a matching one exists, and
set the vehicle current mileage. -/
def updateMileage (db : DB) (woId : Nat) (cm : JsVal) (date? : Option Nat)
    (today : Nat) : DB × List Event :=
  if cm.truthy then
    match cm.parseFloat with
    | none => (db, [])
    | some m =>
      match db.findWorkOrder woId with
      | none => (db, [])
      | some wo =>
        match db.findVehicle wo.vehicle with
        | none => (db, [])
        | some vehicle =>
          let entryDate := date?.getD today
          let dup := vehicle.mileageHistory.any (fun e =>
            e.mileage == m && e.date == entryDate &&
              containsSub e.source (mileageSource woId))
          let vehicle1 :=
            if dup then vehicle
            else { vehicle with mileageHistory :=
                     vehicle.mileageHistory ++ [⟨entryDate, m, mileageSource woId⟩] }
          let vehicle2 := { vehicle1 with currentMileage := some m }
          (db.saveVehicle vehicle2, [Event.mileageSync])
  else (db, [])

/-- Notification block of updateWorkOrder (lines 300-348): when the body
carries a truthy status, the stored status differs, the new status is
notifiable, and the populated customer and vehicle exist, attempt an SMS
when the customer prefers SMS and has a phone (a throwing send is caught).
Returns the trace of attempted notifications. -/
def updateNotify (db : DB) (woId : Nat) (status? : Option String)
    (smsFails : Bool) : List Event :=
  if !strTruthy status? then []
  else
    let status := status?.getD ""
    match db.findWorkOrder woId with
    | none => []
    | some oldWo =>
      if oldWo.status ≠ status then
        if notifiableStatuses.contains status then
          match db.findCustomer oldWo.customer, db.findVehicle oldWo.vehicle with
          | some c, some _ =>
            if c.communicationPreference = "SMS" ∧ c.phone ≠ "" then
              match twilioSendStatusUpdate smsFails with
              | .ok _ => [Event.notifySMS]
              | .error _ => [Event.notifySMS]
            else []
          | _, _ => []
        else []
      else []

/-- Application of the update data by `findByIdAndUpdate` (line 365): every
present field overwrites the stored one. -/
def applyUpdateData (wo : WorkOrder) (status? : Option String)
    (services? : Option (List Service)) (sr? : Option Str)
    (parts? : Option (List PartLine)) (labor? : Option (List LaborLine))
    (te? : Option ℚ) (date? : Option Nat) : WorkOrder :=
  { wo with
    status := status?.getD wo.status,
    services := services?.getD wo.services,
    serviceRequested := sr?.getD wo.serviceRequested,
    parts := parts?.getD wo.parts,
    labor := labor?.getD wo.labor,
    totalEstimate := match te? with | some q => some q | none => wo.totalEstimate,
    date := match date? with | some d => some d | none => wo.date }

/-- updateWorkOrder (lines 192-402), in source order: services
normalization, total recalculation (may 404), vehicle mileage sync,
conditional notification, then `findByIdAndUpdate` applying the update data
(may 404).  The appointment/technician sync (lines 353-362) touches no field
any claim mentions and is outside the model. -/
def updateWorkOrder (db : DB) (woId : Nat) (req : UpdateReq) (today : Nat)
    (smsFails : Bool) : TOut :=
  let services? := (normalizeServicesUpdate req.services req.serviceRequested).1
  let sr? := (normalizeServicesUpdate req.services req.serviceRequested).2
  match updateTotals db woId req.parts req.labor req.totalEstimate with
  | .error e => ⟨e, db, []⟩
  | .ok (te?, tr1) =>
    let db1 := (updateMileage db woId req.currentMileage req.date today).1
    let tr2 := (updateMileage db woId req.currentMileage req.date today).2
    let tr3 := updateNotify db1 woId req.status smsFails
    match db1.findWorkOrder woId with
    | none => ⟨.err 404 "No work order found with that ID", db1, tr1 ++ tr2 ++ tr3⟩
    | some wo =>
      let wo1 := applyUpdateData wo req.status services? sr? req.parts req.labor te? req.date
      let tr4 := if req.status.isSome then [Event.statusWrite] else []
      ⟨.ok 200, db1.saveWorkOrder wo1, tr1 ++ tr2 ++ tr3 ++ tr4⟩

/-- A customer preferring SMS with a phone number on file. -/
def sampleCustomer : Customer := ⟨1, "SMS", "5551234", "ann@example.com"⟩

/-- A vehicle owned by the sample customer, with empty histories. -/
def sampleVehicle : Vehicle := ⟨2, 1, [], [], none⟩

/-- A work order with one parts line (price 10, quantity 1) and one labor
line (2 hours at rate 50). -/
def sampleWorkOrder : WorkOrder :=
  { id := 3, customer := 1, vehicle := 2, date := some 100, status := "Created",
    services := [], serviceRequested := [], parts := [⟨10, 1⟩], labor := [⟨2, 50⟩],
    totalEstimate := none, totalActual := none }

/-- A store holding the sample customer, vehicle and work order. -/
def sampleDB : DB := ⟨[sampleCustomer], [sampleVehicle], [sampleWorkOrder], 4⟩

/-- A minimal create request addressed at the sample customer and vehicle. -/
def plainCreateReq : CreateReq :=
  { customer := 1, vehicle := 2, services := none, serviceRequested := none,
    parts := none, labor := none, totalEstimate := none,
    currentMileage := .undef, date := none }

/-- An update request carrying no fields. -/
def plainUpdateReq : UpdateReq :=
  { services := none, serviceRequested := none, parts := none, labor := none,
    totalEstimate := none, currentMileage := .undef, status := none, date := none }

/-- A create request with one parts line (price 10, quantity 1), one labor
line (2 hours at rate 50) and no explicit total estimate. -/
def buggedCreateReq : CreateReq :=
  { plainCreateReq with parts := some [⟨10, 1⟩], labor := some [⟨2, 50⟩] }

/-- A create request whose currentMileage is the number 0. -/
def zeroMileageReq : CreateReq := { plainCreateReq with currentMileage := .num 0 }

/-- A create request whose currentMileage is the number 50000. -/
def mileageCreateReq : CreateReq := { plainCreateReq with currentMileage := .num 50000 }

/-- Within a trace, every occurrence of the first event comes before every
occurrence of the second. -/
@[reducible]
def eventPrecedes (e1 e2 : Event) (tr : List Event) : Prop :=
  ∀ i j : Fin tr.length, tr.get i = e1 → tr.get j = e2 → (i : Nat) < (j : Nat)

/-- A work order whose vehicle reference does not resolve. -/
def danglingVehicleWO : WorkOrder :=
  { id := 3, customer := 1, vehicle := 99, date := none, status := "Created",
    services := [], serviceRequested := [], parts := [], labor := [],
    totalEstimate := none, totalActual := none }

/-- A store with the SMS-preferring sample customer, no vehicles, and one
work order whose vehicle reference dangles. -/
def danglingVehicleDB : DB := ⟨[sampleCustomer], [], [danglingVehicleWO], 10⟩

/-- An update request that only moves the status to Parts Received. -/
def partsReceivedReq : UpdateReq := { plainUpdateReq with status := some "Parts Received" }

/-- A create request whose only service field is the single-line
serviceRequested string with surrounding spaces. -/
def untrimmedCreateReq : CreateReq :=
  { plainCreateReq with serviceRequested := some " a ".data }

/-- The by-id predicate is satisfied by a found document. -/
theorem findDoc_eq_some {α : Type} {p : α → Bool} {l : List α} {a : α}
    (h : findDoc p l = some a) : p a = true := by
  induction l with
  | nil => simp [findDoc] at h
  | cons x xs ih =>
    by_cases hx : p x = true
    · simp [findDoc, hx] at h
      simpa [← h] using hx
    · simp [findDoc, hx] at h
      exact ih h

/-- Replacing the documents carrying the id of a found document makes the
replacement the one found. -/
theorem findDoc_replace {α : Type} (f : α → Nat) (i : Nat) (l : List α) (a b : α)
    (h : findDoc (fun x => f x == i) l = some a) (hb : f b = f a) :
    findDoc (fun x => f x == i) (l.map (fun x => if f x == f b then b else x)) = some b := by
  have hai : f a = i := by simpa using findDoc_eq_some h
  induction l with
  | nil => simp [findDoc] at h
  | cons x xs ih =>
    by_cases hx : f x = i
    · have hax : x = a := by simpa [findDoc, hx] using h
      have hxb : f x = f b := by rw [hb, hax]
      simp [findDoc, hxb, hb, hax, hai]
    · have h' : findDoc (fun y => f y == i) xs = some a := by
        simpa [findDoc, hx] using h
      have hxb : ¬ f x = f b := by rw [hb, hai]; exact hx
      simpa [findDoc, hxb, hx] using ih h'

/-- Replacing documents by id preserves whether a find succeeds. -/
theorem findDoc_replace_isSome {α : Type} (f : α → Nat) (i : Nat) (l : List α) (b : α) :
    (findDoc (fun x => f x == i) (l.map (fun x => if f x == f b then b else x))).isSome
      = (findDoc (fun x => f x == i) l).isSome := by
  induction l with
  | nil => rfl
  | cons x xs ih =>
    by_cases hxb : f x = f b
    · by_cases hxi : f x = i
      · have hbi : f b = i := by rw [← hxb]; exact hxi
        simp [findDoc, hxb, hbi, hxi]
      · have hbi : ¬ f b = i := by rw [← hxb]; exact hxi
        simpa [findDoc, hxb, hbi, hxi] using ih
    · by_cases hxi : f x = i
      · have hib : ¬ i = f b := by rw [← hxi]; exact hxb
        simp [findDoc, hxb, hib, hxi]
      · simpa [findDoc, hxb, hxi] using ih

/-- Saving a work order that keeps the id of a found one makes the saved
version the one subsequently found. -/
theorem findWorkOrder_save (db : DB) (i : Nat) (wo wo1 : WorkOrder)
    (h : db.findWorkOrder i = some wo) (hid : wo1.id = wo.id) :
    (db.saveWorkOrder wo1).findWorkOrder i = some wo1 := by
  have := findDoc_replace (fun w : WorkOrder => w.id) i db.workOrders wo wo1 h hid
  simpa [DB.saveWorkOrder, DB.findWorkOrder] using this

/-- Saving a vehicle that keeps the id of a found one makes the saved
version the one subsequently found. -/
theorem findVehicle_save (db : DB) (i : Nat) (v v1 : Vehicle)
    (h : db.findVehicle i = some v) (hid : v1.id = v.id) :
    (db.saveVehicle v1).findVehicle i = some v1 := by
  have := findDoc_replace (fun w : Vehicle => w.id) i db.vehicles v v1 h hid
  simpa [DB.saveVehicle, DB.findVehicle] using this

/-- Saving a vehicle does not change work-order lookups. -/
theorem saveVehicle_findWorkOrder (db : DB) (v : Vehicle) (i : Nat) :
    (db.saveVehicle v).findWorkOrder i = db.findWorkOrder i := rfl

/-- Saving a vehicle does not change customer lookups. -/
theorem saveVehicle_findCustomer (db : DB) (v : Vehicle) (i : Nat) :
    (db.saveVehicle v).findCustomer i = db.findCustomer i := rfl

/-- Saving a vehicle preserves existence of every vehicle. -/
theorem saveVehicle_findVehicle_isSome (db : DB) (v : Vehicle) (i : Nat) :
    ((db.saveVehicle v).findVehicle i).isSome = (db.findVehicle i).isSome := by
  simpa [DB.saveVehicle, DB.findVehicle] using
    findDoc_replace_isSome (fun w : Vehicle => w.id) i db.vehicles v

/-- Claim C1 (code bug): createWorkOrder on a request with one parts line
(10 at quantity 1) and one labor line (2 hours at 50), and no explicit
total, stores totalEstimate 10 — the parts cost alone — while the sum over
parts and labor lines is 110.  The labor branch (controller lines 153-161)
is guarded by the same truthiness test as the parts branch, so it is
skipped as soon as the parts branch stored a non-zero parts cost, although
its right-hand side (totalEstimate or 0) + laborCost shows accumulation was
intended. -/
theorem createWorkOrder_totals_bug :
    ((createWorkOrder sampleDB buggedCreateReq 0).db.findWorkOrder 4).map (·.totalEstimate) =
        some (some 10)
    ∧ partsCost [⟨10, 1⟩] + laborCost [⟨2, 50⟩] = 110 := by
  constructor
  · norm_num [createWorkOrder, sampleDB, buggedCreateReq, plainCreateReq, sampleCustomer,
      sampleVehicle, sampleWorkOrder, DB.findVehicle, DB.findCustomer, DB.findWorkOrder,
      DB.saveVehicle, normalizeServicesCreate, createTotals, qTruthy, partsCost, laborCost,
      findDoc, joinDescriptions, requestedToServices]
  · norm_num [partsCost, laborCost]

/-- Claim C2 (confirmed): for a work order found by id and a non-empty new
status, updateStatus stores totalActual = parts cost + labor cost exactly
when the new status is Completed - Paid or Invoiced, and leaves totalActual
unchanged for every other status. -/
theorem updateStatus_totalActual_iff (db : DB) (woId : Nat) (st : String)
    (fails : Bool) (wo : WorkOrder)
    (hfind : db.findWorkOrder woId = some wo) (hst : st ≠ "") :
    ((updateStatus db woId (some st) fails).db.findWorkOrder woId).map (·.totalActual) =
      some (if st = "Completed - Paid" ∨ st = "Invoiced"
            then some (partsCost wo.parts + laborCost wo.labor)
            else wo.totalActual) := by
  have hs : strTruthy (some st) = true := by simp [strTruthy, hst]
  unfold updateStatus
  rw [hs, hfind]
  by_cases hcp : st = "Completed - Paid" ∨ st = "Invoiced"
  · have hsave := findWorkOrder_save db woId wo
      { wo with
        status := st,
        totalActual := some (partsCost wo.parts + laborCost wo.labor) } hfind rfl
    simp [if_pos hcp, hsave]
  · have hsave := findWorkOrder_save db woId wo { wo with status := st } hfind rfl
    simp [if_neg hcp, hsave, hcp]

/-- Witness for C2: on the sample store, setting status Invoiced stores
totalActual 10 * 1 + 2 * 50. -/
theorem updateStatus_totalActual_iff_witness :
    ((updateStatus sampleDB 3 (some "Invoiced") false).db.findWorkOrder 3).map (·.totalActual) =
      some (if ("Invoiced" : String) = "Completed - Paid" ∨ ("Invoiced" : String) = "Invoiced"
            then some (partsCost sampleWorkOrder.parts + laborCost sampleWorkOrder.labor)
            else sampleWorkOrder.totalActual) :=
  updateStatus_totalActual_iff sampleDB 3 "Invoiced" false sampleWorkOrder rfl (by decide)

/-- Claim C3 (confirmed): after addPart the stored totalEstimate is the
parts cost over the extended parts list plus the labor cost over the labor
list, and dually for addLabor. -/
theorem addPart_addLabor_totalEstimate (db : DB) (woId : Nat) (p : PartLine)
    (l : LaborLine) (wo : WorkOrder) (hfind : db.findWorkOrder woId = some wo) :
    ((addPart db woId p).db.findWorkOrder woId).map
        (fun w => (w.parts, w.labor, w.totalEstimate)) =
      some (wo.parts ++ [p], wo.labor,
        some (partsCost (wo.parts ++ [p]) + laborCost wo.labor))
    ∧ ((addLabor db woId l).db.findWorkOrder woId).map
        (fun w => (w.parts, w.labor, w.totalEstimate)) =
      some (wo.parts, wo.labor ++ [l],
        some (partsCost wo.parts + laborCost (wo.labor ++ [l]))) := by
  constructor
  · unfold addPart
    rw [hfind]
    have hsave := findWorkOrder_save db woId wo
      { wo with
        parts := wo.parts ++ [p],
        totalEstimate := some (partsCost (wo.parts ++ [p]) + laborCost wo.labor) } hfind rfl
    simp [hsave]
  · unfold addLabor
    rw [hfind]
    have hsave := findWorkOrder_save db woId wo
      { wo with
        labor := wo.labor ++ [l],
        totalEstimate := some (partsCost wo.parts + laborCost (wo.labor ++ [l])) } hfind rfl
    simp [hsave]

/-- Witness for C3 on the sample store. -/
theorem addPart_addLabor_totalEstimate_witness :
    ((addPart sampleDB 3 ⟨5, 2⟩).db.findWorkOrder 3).map
        (fun w => (w.parts, w.labor, w.totalEstimate)) =
      some (sampleWorkOrder.parts ++ [⟨5, 2⟩], sampleWorkOrder.labor,
        some (partsCost (sampleWorkOrder.parts ++ [⟨5, 2⟩]) + laborCost sampleWorkOrder.labor))
    ∧ ((addLabor sampleDB 3 ⟨1, 80⟩).db.findWorkOrder 3).map
        (fun w => (w.parts, w.labor, w.totalEstimate)) =
      some (sampleWorkOrder.parts, sampleWorkOrder.labor ++ [⟨1, 80⟩],
        some (partsCost sampleWorkOrder.parts + laborCost (sampleWorkOrder.labor ++ [⟨1, 80⟩]))) :=
  addPart_addLabor_totalEstimate sampleDB 3 ⟨5, 2⟩ ⟨1, 80⟩ sampleWorkOrder rfl

/-- Counterexample to C9: a request body carrying a status — the empty
string — is still answered with 400, so failing with 400 is not equivalent
to the body containing no status. -/
theorem updateStatus_emptyStatus_counterexample :
    (some "" ≠ (none : Option String))
    ∧ (updateStatus sampleDB 3 (some "") false).res = .err 400 "Please provide a status" := by
  exact ⟨by simp, rfl⟩

/-- Closed form of the updateStatus response. -/
theorem updateStatus_res (db : DB) (woId : Nat) (status? : Option String)
    (fails : Bool) :
    (updateStatus db woId status? fails).res =
      if strTruthy status? = false then .err 400 "Please provide a status"
      else if (db.findWorkOrder woId).isSome then .ok 200
      else .err 404 "No work order found with that ID" := by
  unfold updateStatus
  cases hf : strTruthy status? with
  | false => simp
  | true =>
    cases hfind : db.findWorkOrder woId with
    | none => simp
    | some wo =>
      simp only [Bool.not_true, Bool.false_eq_true, Bool.true_eq_false, if_false,
        Option.isSome_some, if_true]

/-- Claim C9 (corrected): updateStatus fails with 400 exactly when the
status is missing or empty (JavaScript falsiness of the status string);
otherwise it fails with 404 exactly when no work order has the id;
otherwise it succeeds with 200. -/
theorem updateStatus_statusCodes (db : DB) (woId : Nat) (status? : Option String)
    (fails : Bool) :
    ((updateStatus db woId status? fails).res = .err 400 "Please provide a status"
       ↔ (status? = none ∨ status? = some ""))
    ∧ ((updateStatus db woId status? fails).res = .err 404 "No work order found with that ID"
       ↔ ¬(status? = none ∨ status? = some "") ∧ db.findWorkOrder woId = none)
    ∧ ((updateStatus db woId status? fails).res = .ok 200
       ↔ ¬(status? = none ∨ status? = some "") ∧ (db.findWorkOrder woId).isSome = true) := by
  have hchar : strTruthy status? = false ↔ (status? = none ∨ status? = some "") := by
    cases status? with
    | none => simp [strTruthy]
    | some s => simp [strTruthy]
  rw [updateStatus_res]
  by_cases hf : strTruthy status? = false
  · have h400 := hchar.mp hf
    rw [if_pos hf]
    refine ⟨by simp [h400], by simp [h400], by simp [h400]⟩
  · have hns : ¬(status? = none ∨ status? = some "") := fun hc => hf (hchar.mpr hc)
    rw [if_neg hf]
    cases hfind : db.findWorkOrder woId with
    | none => simp [hns]
    | some wo => simp [hns]

/-- Claim C10 (confirmed): createWorkOrder returns the operational error
and leaves the store untouched when the vehicle is missing (404), the
customer is missing (404), or the vehicle belongs to another customer
(400). -/
theorem createWorkOrder_validation_atomic (db : DB) (req : CreateReq) (today : Nat) :
    (db.findVehicle req.vehicle = none →
       (createWorkOrder db req today).res = .err 404 "No vehicle found with that ID"
       ∧ (createWorkOrder db req today).db = db)
    ∧ (∀ v, db.findVehicle req.vehicle = some v → db.findCustomer req.customer = none →
       (createWorkOrder db req today).res = .err 404 "No customer found with that ID"
       ∧ (createWorkOrder db req today).db = db)
    ∧ (∀ v c, db.findVehicle req.vehicle = some v → db.findCustomer req.customer = some c →
       v.customer ≠ c.id →
       (createWorkOrder db req today).res = .err 400 "The vehicle does not belong to this customer"
       ∧ (createWorkOrder db req today).db = db) := by
  refine ⟨?_, ?_, ?_⟩
  · intro hv
    unfold createWorkOrder
    rw [hv]
    exact ⟨rfl, rfl⟩
  · intro v hv hc
    unfold createWorkOrder
    rw [hv, hc]
    exact ⟨rfl, rfl⟩
  · intro v c hv hc hmm
    unfold createWorkOrder
    rw [hv, hc]
    simp [hmm]

/-- Witness for C10: creating against a missing vehicle id on the sample
store answers 404 and changes nothing. -/
theorem createWorkOrder_validation_atomic_witness :
    (createWorkOrder sampleDB { plainCreateReq with vehicle := 77 } 0).res =
        .err 404 "No vehicle found with that ID"
    ∧ (createWorkOrder sampleDB { plainCreateReq with vehicle := 77 } 0).db = sampleDB :=
  (createWorkOrder_validation_atomic sampleDB { plainCreateReq with vehicle := 77 } 0).1 rfl

/-- Claim C6 (confirmed): a throwing SMS send is caught: the response and
the stored state of updateStatus and updateWorkOrder do not depend on
whether the Twilio call throws, and a status update on an existing work
order still succeeds with 200 and stores the new status when the send
throws. -/
theorem notification_failure_harmless (db : DB) (woId : Nat) (status? : Option String)
    (req : UpdateReq) (today : Nat) :
    ((updateStatus db woId status? true).res = (updateStatus db woId status? false).res
      ∧ (updateStatus db woId status? true).db = (updateStatus db woId status? false).db)
    ∧ ((updateWorkOrder db woId req today true).res = (updateWorkOrder db woId req today false).res
      ∧ (updateWorkOrder db woId req today true).db = (updateWorkOrder db woId req today false).db)
    ∧ (∀ st wo, st ≠ "" → db.findWorkOrder woId = some wo →
        (updateStatus db woId (some st) true).res = .ok 200
        ∧ ((updateStatus db woId (some st) true).db.findWorkOrder woId).map (·.status) =
            some st) := by
  refine ⟨⟨?_, ?_⟩, ⟨?_, ?_⟩, ?_⟩
  · unfold updateStatus
    split
    · rfl
    · split <;> rfl
  · unfold updateStatus
    split
    · rfl
    · split <;> rfl
  · unfold updateWorkOrder
    split
    · rfl
    · simp only []
      split <;> rfl
  · unfold updateWorkOrder
    split
    · rfl
    · simp only []
      split <;> rfl
  · intro st wo hst hfind
    have hs : strTruthy (some st) = true := by simp [strTruthy, hst]
    constructor
    · rw [updateStatus_res, hs, hfind]
      simp
    · unfold updateStatus
      rw [hs, hfind]
      by_cases hcp : st = "Completed - Paid" ∨ st = "Invoiced"
      · have hsave := findWorkOrder_save db woId wo
          { wo with
            status := st,
            totalActual := some (partsCost wo.parts + laborCost wo.labor) } hfind rfl
        simp [if_pos hcp, hsave]
      · have hsave := findWorkOrder_save db woId wo { wo with status := st } hfind rfl
        simp [if_neg hcp, hsave]

/-- Counterexample to C8: currentMileage 0 parses as a number, yet only the
service-history append happens — the mileage history stays empty and the
vehicle currentMileage stays unset, because the number 0 is falsy in the
guard currentMileage and not isNaN of parseFloat of currentMileage. -/
theorem createWorkOrder_mileage_zero_counterexample :
    JsVal.parseFloat (.num 0) = some 0
    ∧ ((createWorkOrder sampleDB zeroMileageReq 0).db.findVehicle 2).map
        (fun v => (v.serviceHistory, v.mileageHistory, v.currentMileage)) =
      some ([4], [], none) := by
  constructor
  · rfl
  · norm_num [createWorkOrder, sampleDB, zeroMileageReq, plainCreateReq, sampleCustomer,
      sampleVehicle, sampleWorkOrder, DB.findVehicle, DB.findCustomer, DB.saveVehicle,
      normalizeServicesCreate, createTotals, qTruthy, findDoc, JsVal.truthy]

/-- Claim C8 (corrected): a validated createWorkOrder succeeds with 201 and
changes the owning vehicle exactly as follows: the fresh work-order id is
appended to its service history, and when currentMileage is truthy and
parses, one entry with that mileage and the request date (or today) is
appended to its mileage history and its currentMileage field is set; when
currentMileage is absent, non-numeric, zero or empty, only the
service-history append occurs. -/
theorem createWorkOrder_vehicle_effects (db : DB) (req : CreateReq) (today : Nat)
    (v : Vehicle) (c : Customer)
    (hv : db.findVehicle req.vehicle = some v)
    (hc : db.findCustomer req.customer = some c)
    (hown : v.customer = c.id) :
    (createWorkOrder db req today).res = .ok 201
    ∧ (createWorkOrder db req today).db.findVehicle req.vehicle =
        some (match (if req.currentMileage.truthy then req.currentMileage.parseFloat else none) with
          | some m =>
            { v with
              serviceHistory := v.serviceHistory ++ [db.nextId],
              mileageHistory := v.mileageHistory ++
                [⟨req.date.getD today, m, mileageSource db.nextId⟩],
              currentMileage := some m }
          | none => { v with serviceHistory := v.serviceHistory ++ [db.nextId] }) := by
  have hno : ¬ v.customer ≠ c.id := by simp [hown]
  constructor
  · unfold createWorkOrder
    rw [hv, hc]
    simp [hno]
  · by_cases htr : req.currentMileage.truthy = true
    · cases hpf : req.currentMileage.parseFloat with
      | none =>
        unfold createWorkOrder
        rw [hv, hc]
        simp [hno, htr, hpf]
        exact findVehicle_save _ req.vehicle v _ hv rfl
      | some m =>
        unfold createWorkOrder
        rw [hv, hc]
        simp [hno, htr, hpf]
        exact findVehicle_save _ req.vehicle v _ hv rfl
    · have htr' : req.currentMileage.truthy = false := by
        revert htr; cases req.currentMileage.truthy <;> simp
      unfold createWorkOrder
      rw [hv, hc]
      simp [hno, htr']
      exact findVehicle_save _ req.vehicle v _ hv rfl

/-- Witness for C8: creating with currentMileage 50000 on the sample store
appends service and mileage history and sets the vehicle mileage. -/
theorem createWorkOrder_vehicle_effects_witness :
    (createWorkOrder sampleDB mileageCreateReq 7).res = .ok 201
    ∧ (createWorkOrder sampleDB mileageCreateReq 7).db.findVehicle mileageCreateReq.vehicle =
        some { sampleVehicle with
               serviceHistory := [4],
               mileageHistory := [⟨7, 50000, mileageSource 4⟩],
               currentMileage := some 50000 } := by
  have h := createWorkOrder_vehicle_effects sampleDB mileageCreateReq 7
    sampleVehicle sampleCustomer rfl rfl rfl
  refine ⟨h.1, ?_⟩
  rw [h.2]
  norm_num [mileageCreateReq, plainCreateReq, JsVal.truthy, JsVal.parseFloat,
    sampleVehicle, sampleDB]

/-- Witness for C6: a failing send during a status update on the sample
store still yields 200 and the stored status Parts Received. -/
theorem notification_failure_harmless_witness :
    (updateStatus sampleDB 3 (some "Parts Received") true).res = .ok 200
    ∧ ((updateStatus sampleDB 3 (some "Parts Received") true).db.findWorkOrder 3).map (·.status) =
        some "Parts Received" :=
  (notification_failure_harmless sampleDB 3 (some "Parts Received") plainUpdateReq 0).2.2
    "Parts Received" sampleWorkOrder (by decide) rfl

/-- The trace component of a successful updateTotals is empty or a single
recalculation event. -/
theorem updateTotals_trace {db : DB} {woId : Nat} {p? : Option (List PartLine)}
    {l? : Option (List LaborLine)} {te? te2 : Option ℚ} {tr : List Event}
    (h : updateTotals db woId p? l? te? = .ok (te2, tr)) :
    tr = [] ∨ tr = [Event.recalcTotal] := by
  unfold updateTotals at h
  repeat' split at h
  all_goals simp_all

/-- A failing updateTotals means the work order is missing. -/
theorem updateTotals_error {db : DB} {woId : Nat} {p? : Option (List PartLine)}
    {l? : Option (List LaborLine)} {te? : Option ℚ} {e : HResult}
    (h : updateTotals db woId p? l? te? = .error e) :
    db.findWorkOrder woId = none := by
  unfold updateTotals at h
  repeat' split at h
  all_goals simp_all

/-- The trace of a mileage sync is empty or a single sync event. -/
theorem updateMileage_trace (db : DB) (woId : Nat) (cm : JsVal) (date? : Option Nat)
    (today : Nat) :
    (updateMileage db woId cm date? today).2 = [] ∨
    (updateMileage db woId cm date? today).2 = [Event.mileageSync] := by
  unfold updateMileage
  repeat' split
  all_goals simp

/-- The mileage sync never touches work orders or customers and preserves
the existence of every vehicle. -/
theorem updateMileage_db_finds (db : DB) (woId : Nat) (cm : JsVal) (date? : Option Nat)
    (today : Nat) (i : Nat) :
    ((updateMileage db woId cm date? today).1.findWorkOrder i = db.findWorkOrder i)
    ∧ ((updateMileage db woId cm date? today).1.findCustomer i = db.findCustomer i)
    ∧ (((updateMileage db woId cm date? today).1.findVehicle i).isSome
        = (db.findVehicle i).isSome) := by
  unfold updateMileage
  repeat' split
  all_goals first
    | exact ⟨rfl, rfl, rfl⟩
    | exact ⟨saveVehicle_findWorkOrder _ _ _, saveVehicle_findCustomer _ _ _,
        saveVehicle_findVehicle_isSome _ _ _⟩

/-- The notification block of updateWorkOrder emits nothing or a single
attempted SMS. -/
theorem updateNotify_trace (db : DB) (woId : Nat) (status? : Option String)
    (fails : Bool) :
    updateNotify db woId status? fails = [] ∨
    updateNotify db woId status? fails = [Event.notifySMS] := by
  unfold updateNotify
  repeat' split
  all_goals try simp
  all_goals split_ifs <;> simp_all

/-- The notification step of updateStatus emits nothing or a single
attempted SMS. -/
theorem statusNotify_trace (db1 : DB) (wo2 : WorkOrder) (fails : Bool) :
    statusNotify db1 wo2 fails = [] ∨ statusNotify db1 wo2 fails = [Event.notifySMS] := by
  unfold statusNotify
  repeat' split
  all_goals simp

/-- Shape of the updateStatus trace: empty on failure, otherwise the status
write, then an optional recalculation, then an optional notification
attempt, in that order. -/
theorem updateStatus_trace_shape (db : DB) (woId : Nat) (status? : Option String)
    (fails : Bool) :
    (updateStatus db woId status? fails).trace = [] ∨
    ∃ tr2 tr3 : List Event,
      (updateStatus db woId status? fails).trace = [Event.statusWrite] ++ tr2 ++ tr3
      ∧ (tr2 = [] ∨ tr2 = [Event.recalcTotal])
      ∧ (tr3 = [] ∨ tr3 = [Event.notifySMS]) := by
  unfold updateStatus
  cases hstr : strTruthy status? with
  | false => exact Or.inl (by simp)
  | true =>
    simp only [Bool.not_true, Bool.false_eq_true, if_false]
    cases hfind : db.findWorkOrder woId with
    | none => exact Or.inl rfl
    | some wo =>
      refine Or.inr ?_
      simp only [List.append_assoc]
      exact ⟨_, _, rfl, by split <;> simp, statusNotify_trace _ _ _⟩

/-- Shape of the updateWorkOrder trace: an optional recalculation, then an
optional mileage sync, then an optional notification attempt, then the
status write exactly when the work order exists and the body carries a
status, in that order. -/
theorem updateWorkOrder_trace_shape (db : DB) (woId : Nat) (req : UpdateReq)
    (today : Nat) (fails : Bool) :
    ∃ tr1 tr2 tr3 tr4 : List Event,
      (updateWorkOrder db woId req today fails).trace = tr1 ++ tr2 ++ tr3 ++ tr4
      ∧ (tr1 = [] ∨ tr1 = [Event.recalcTotal])
      ∧ (tr2 = [] ∨ tr2 = [Event.mileageSync])
      ∧ (tr3 = [] ∨ tr3 = [Event.notifySMS])
      ∧ (tr4 = [] ∨ tr4 = [Event.statusWrite]) := by
  cases htot : updateTotals db woId req.parts req.labor req.totalEstimate with
  | error e =>
    refine ⟨[], [], [], [], ?_, by simp, by simp, by simp, by simp⟩
    unfold updateWorkOrder
    rw [htot]
    simp
  | ok pr =>
    obtain ⟨te2, tr1⟩ := pr
    refine ⟨tr1, (updateMileage db woId req.currentMileage req.date today).2,
      updateNotify (updateMileage db woId req.currentMileage req.date today).1 woId
        req.status fails,
      (if (db.findWorkOrder woId).isSome ∧ req.status.isSome then [Event.statusWrite] else []),
      ?_, updateTotals_trace htot,
      updateMileage_trace db woId req.currentMileage req.date today,
      updateNotify_trace _ woId req.status fails, by split <;> simp⟩
    unfold updateWorkOrder
    rw [htot]
    simp only []
    rw [(updateMileage_db_finds db woId req.currentMileage req.date today woId).1]
    cases hfind : db.findWorkOrder woId with
    | none => simp
    | some wo =>
      cases hst : req.status <;> simp [hst]

/-- Event order of the updateStatus pipeline: no mileage sync, and status
write before recalculation before notification. -/
theorem updateStatus_pipeline_order (db : DB) (woId : Nat) (status? : Option String)
    (fails : Bool) :
    Event.mileageSync ∉ (updateStatus db woId status? fails).trace
    ∧ eventPrecedes Event.statusWrite Event.recalcTotal (updateStatus db woId status? fails).trace
    ∧ eventPrecedes Event.statusWrite Event.notifySMS (updateStatus db woId status? fails).trace
    ∧ eventPrecedes Event.recalcTotal Event.notifySMS (updateStatus db woId status? fails).trace := by
  rcases updateStatus_trace_shape db woId status? fails with h | ⟨tr2, tr3, h, h2, h3⟩
  · rw [h]
    exact ⟨by decide, by decide, by decide, by decide⟩
  · rw [h]
    rcases h2 with h2 | h2 <;> rcases h3 with h3 | h3 <;> subst h2 h3 <;>
      exact ⟨by decide, by decide, by decide, by decide⟩

/-- Event order of the updateWorkOrder pipeline: recalculation before
mileage sync before notification before the status write. -/
theorem updateWorkOrder_pipeline_order (db : DB) (woId : Nat) (req : UpdateReq)
    (today : Nat) (fails : Bool) :
    eventPrecedes Event.recalcTotal Event.mileageSync (updateWorkOrder db woId req today fails).trace
    ∧ eventPrecedes Event.recalcTotal Event.notifySMS (updateWorkOrder db woId req today fails).trace
    ∧ eventPrecedes Event.recalcTotal Event.statusWrite (updateWorkOrder db woId req today fails).trace
    ∧ eventPrecedes Event.mileageSync Event.notifySMS (updateWorkOrder db woId req today fails).trace
    ∧ eventPrecedes Event.mileageSync Event.statusWrite (updateWorkOrder db woId req today fails).trace
    ∧ eventPrecedes Event.notifySMS Event.statusWrite (updateWorkOrder db woId req today fails).trace := by
  obtain ⟨tr1, tr2, tr3, tr4, h, h1, h2, h3, h4⟩ :=
    updateWorkOrder_trace_shape db woId req today fails
  rw [h]
  rcases h1 with h1 | h1 <;> rcases h2 with h2 | h2 <;> rcases h3 with h3 | h3 <;>
    rcases h4 with h4 | h4 <;> subst h1 h2 h3 h4 <;>
    exact ⟨by decide, by decide, by decide, by decide, by decide, by decide⟩

/-- Counterexample to C4: on the sample store, updateStatus to Invoiced
emits the status write, then the total recalculation, then the notification
attempt — the notification does not precede the recalculation as the
claimed pipeline order (status, notification, recalculation, mileage)
requires. -/
theorem updateStatus_pipeline_order_counterexample :
    (updateStatus sampleDB 3 (some "Invoiced") false).trace =
      [Event.statusWrite, Event.recalcTotal, Event.notifySMS]
    ∧ ¬ eventPrecedes Event.notifySMS Event.recalcTotal
        (updateStatus sampleDB 3 (some "Invoiced") false).trace := by
  have htr : (updateStatus sampleDB 3 (some "Invoiced") false).trace =
      [Event.statusWrite, Event.recalcTotal, Event.notifySMS] := by
    norm_num [updateStatus, statusNotify, sampleDB, sampleCustomer, sampleVehicle,
      sampleWorkOrder, strTruthy, DB.findWorkOrder, DB.findCustomer, DB.saveWorkOrder,
      findDoc, twilioSendStatusUpdate]
    decide
  refine ⟨htr, ?_⟩
  rw [htr]
  decide

/-- The mileage sync never changes work-order lookups. -/
theorem updateMileage_findWorkOrder (db : DB) (woId : Nat) (cm : JsVal)
    (date? : Option Nat) (today i : Nat) :
    (updateMileage db woId cm date? today).1.findWorkOrder i = db.findWorkOrder i :=
  (updateMileage_db_finds db woId cm date? today i).1

/-- The mileage sync never changes customer lookups. -/
theorem updateMileage_findCustomer (db : DB) (woId : Nat) (cm : JsVal)
    (date? : Option Nat) (today i : Nat) :
    (updateMileage db woId cm date? today).1.findCustomer i = db.findCustomer i :=
  (updateMileage_db_finds db woId cm date? today i).2.1

/-- The mileage sync preserves existence of every vehicle. -/
theorem updateMileage_findVehicle_isSome (db : DB) (woId : Nat) (cm : JsVal)
    (date? : Option Nat) (today i : Nat) :
    ((updateMileage db woId cm date? today).1.findVehicle i).isSome
      = (db.findVehicle i).isSome :=
  (updateMileage_db_finds db woId cm date? today i).2.2

/-- Membership characterization of the updateWorkOrder notification block:
an SMS is attempted exactly when the body carries a non-empty status, the
stored work order exists and its status differs, the new status is one of
the five notifiable ones, the populated customer and vehicle exist, and
the customer prefers SMS and has a phone. -/
theorem updateNotify_mem (db : DB) (woId : Nat) (status? : Option String)
    (fails : Bool) :
    Event.notifySMS ∈ updateNotify db woId status? fails ↔
      ∃ st wo c, status? = some st ∧ st ≠ "" ∧
        db.findWorkOrder woId = some wo ∧ wo.status ≠ st ∧
        st ∈ notifiableStatuses ∧
        db.findCustomer wo.customer = some c ∧
        (db.findVehicle wo.vehicle).isSome = true ∧
        c.communicationPreference = "SMS" ∧ c.phone ≠ "" := by
  cases status? with
  | none => simp [updateNotify, strTruthy]
  | some st =>
    by_cases hst : st = ""
    · subst hst
      simp [updateNotify, strTruthy]
    · have hs : strTruthy (some st) = true := by simp [strTruthy, hst]
      cases hfind : db.findWorkOrder woId with
      | none => simp [updateNotify, hs, hfind, hst]
      | some wo =>
        by_cases hdiff : wo.status = st
        · simp [updateNotify, hs, hfind, hst, hdiff]
        · by_cases hmem : st ∈ notifiableStatuses
          · cases hcust : db.findCustomer wo.customer with
            | none => simp [updateNotify, hs, hfind, hst, hdiff, hmem, hcust]
            | some c =>
              cases hveh : db.findVehicle wo.vehicle with
              | none => simp [updateNotify, hs, hfind, hst, hdiff, hmem, hcust, hveh]
              | some v =>
                by_cases hpref : c.communicationPreference = "SMS" ∧ c.phone ≠ ""
                · cases htw : twilioSendStatusUpdate fails <;>
                    simp [updateNotify, hs, hfind, hst, hdiff, hmem, hcust, hveh, hpref, htw]
                · simp [updateNotify, hs, hfind, hst, hdiff, hmem, hcust, hveh, hpref]
          · simp [updateNotify, hs, hfind, hst, hdiff, hmem]

/-- The updateWorkOrder trace as an explicit concatenation of the traces of
its four steps. -/
theorem updateWorkOrder_trace_eq (db : DB) (woId : Nat) (req : UpdateReq)
    (today : Nat) (fails : Bool) :
    (updateWorkOrder db woId req today fails).trace =
      (match updateTotals db woId req.parts req.labor req.totalEstimate with
       | .error _ => []
       | .ok (_, tr1) =>
         tr1 ++ (updateMileage db woId req.currentMileage req.date today).2
         ++ updateNotify (updateMileage db woId req.currentMileage req.date today).1 woId
             req.status fails
         ++ (if (db.findWorkOrder woId).isSome ∧ req.status.isSome
             then [Event.statusWrite] else [])) := by
  cases htot : updateTotals db woId req.parts req.labor req.totalEstimate with
  | error e =>
    unfold updateWorkOrder
    rw [htot]
  | ok pr =>
    obtain ⟨te?, tr1⟩ := pr
    unfold updateWorkOrder
    rw [htot]
    simp only []
    rw [updateMileage_findWorkOrder db woId req.currentMileage req.date today woId]
    cases hfind : db.findWorkOrder woId with
    | none => simp
    | some wo => cases hst : req.status <;> simp [hst]

/-- Claim C5 (corrected): in updateWorkOrder an SMS notification is
attempted exactly when the update carries a non-empty status, the work
order exists, its stored status differs from the new one, the new status is
one of the five notifiable statuses, the populated customer and vehicle
both exist, the customer communicationPreference is SMS, and the customer
has a phone number. -/
theorem updateWorkOrder_sms_iff (db : DB) (woId : Nat) (req : UpdateReq)
    (today : Nat) (fails : Bool) :
    Event.notifySMS ∈ (updateWorkOrder db woId req today fails).trace ↔
      ∃ st wo c, req.status = some st ∧ st ≠ "" ∧
        db.findWorkOrder woId = some wo ∧ wo.status ≠ st ∧
        st ∈ notifiableStatuses ∧
        db.findCustomer wo.customer = some c ∧
        (db.findVehicle wo.vehicle).isSome = true ∧
        c.communicationPreference = "SMS" ∧ c.phone ≠ "" := by
  rw [updateWorkOrder_trace_eq]
  cases htot : updateTotals db woId req.parts req.labor req.totalEstimate with
  | error e =>
    have hmiss := updateTotals_error htot
    simp [hmiss]
  | ok pr =>
    obtain ⟨te?, tr1⟩ := pr
    have h1 := updateTotals_trace htot
    rcases h1 with h1 | h1 <;>
      rcases updateMileage_trace db woId req.currentMileage req.date today with h2 | h2 <;>
      by_cases hif : (db.findWorkOrder woId).isSome ∧ req.status.isSome <;>
      simp [h1, h2, hif, updateNotify_mem, updateMileage_findWorkOrder,
        updateMileage_findCustomer, updateMileage_findVehicle_isSome]

/-- Counterexample to C5: a status change to the notifiable Parts Received
for an SMS-preferring customer with a phone attempts no SMS when the work
order vehicle reference does not resolve — a condition absent from the
claimed iff. -/
theorem updateWorkOrder_notify_missing_vehicle :
    (danglingVehicleDB.findWorkOrder 3).map (·.status) = some "Created"
    ∧ "Parts Received" ∈ notifiableStatuses
    ∧ danglingVehicleDB.findCustomer 1 = some sampleCustomer
    ∧ sampleCustomer.communicationPreference = "SMS"
    ∧ sampleCustomer.phone ≠ ""
    ∧ Event.notifySMS ∉ (updateWorkOrder danglingVehicleDB 3 partsReceivedReq 0 false).trace := by
  refine ⟨rfl, by decide, rfl, rfl, by decide, ?_⟩
  rw [updateWorkOrder_trace_eq]
  decide

/-- Claim C4 (corrected): the status side-effect pipeline runs in the order
status write, then total recalculation, then notification in updateStatus,
with no vehicle mileage sync there; and in updateWorkOrder in the order
total recalculation, then vehicle mileage sync, then notification, then the
status write. -/
theorem pipeline_event_order (db : DB) (woId : Nat) (status? : Option String)
    (req : UpdateReq) (today : Nat) (fails : Bool) :
    (Event.mileageSync ∉ (updateStatus db woId status? fails).trace
     ∧ eventPrecedes Event.statusWrite Event.recalcTotal (updateStatus db woId status? fails).trace
     ∧ eventPrecedes Event.statusWrite Event.notifySMS (updateStatus db woId status? fails).trace
     ∧ eventPrecedes Event.recalcTotal Event.notifySMS (updateStatus db woId status? fails).trace)
    ∧ (eventPrecedes Event.recalcTotal Event.mileageSync (updateWorkOrder db woId req today fails).trace
     ∧ eventPrecedes Event.recalcTotal Event.notifySMS (updateWorkOrder db woId req today fails).trace
     ∧ eventPrecedes Event.recalcTotal Event.statusWrite (updateWorkOrder db woId req today fails).trace
     ∧ eventPrecedes Event.mileageSync Event.notifySMS (updateWorkOrder db woId req today fails).trace
     ∧ eventPrecedes Event.mileageSync Event.statusWrite (updateWorkOrder db woId req today fails).trace
     ∧ eventPrecedes Event.notifySMS Event.statusWrite (updateWorkOrder db woId req today fails).trace) :=
  ⟨updateStatus_pipeline_order db woId status? fails,
   updateWorkOrder_pipeline_order db woId req today fails⟩

/-- A document appended to a collection with no prior match is the one
found. -/
theorem findDoc_append_last {α : Type} (p : α → Bool) (l : List α) (a : α)
    (h : findDoc p l = none) (ha : p a = true) : findDoc p (l ++ [a]) = some a := by
  induction l with
  | nil => simp [findDoc, ha]
  | cons x xs ih =>
    by_cases hx : p x = true
    · simp [findDoc, hx] at h
    · simp only [findDoc, List.cons_append]
      rw [if_neg (by simp [hx])]
      exact ih (by simpa [findDoc, hx] using h)

/-- A newline occurs in the join of at least two descriptions. -/
theorem mem_joinDescriptions_two (x : Char) (a b : Str) (t : List Str) :
    x ∈ (([x] : Str).intercalate (a :: b :: t)) := by
  simp [List.intercalate, List.intersperse]

/-- Round trip: converting the generated serviceRequested string recovers
the services whenever every description is trimmed, non-empty and
newline-free. -/
theorem requestedToServices_joinDescriptions (l : List Service) (hne : l ≠ [])
    (h : ∀ s ∈ l, trimChars s.description = s.description ∧ s.description ≠ [] ∧
      ('\n' : Char) ∉ s.description) :
    requestedToServices (joinDescriptions l) = l := by
  match l, hne with
  | [s], _ =>
    have hs := h s (by simp)
    simp [requestedToServices, joinDescriptions, List.intercalate, hs.2.2]
  | s1 :: s2 :: t, _ =>
    have hmem : ('\n' : Char) ∈ joinDescriptions (s1 :: s2 :: t) := by
      simpa [joinDescriptions] using
        mem_joinDescriptions_two '\n' s1.description s2.description (t.map (·.description))
    rw [requestedToServices, if_pos hmem]
    rw [splitServiceRequested, joinDescriptions]
    rw [List.splitOn_intercalate _ _ ?hx ?hls]
    case hx =>
      intro d hd
      simp only [List.mem_map] at hd
      obtain ⟨s, hs, rfl⟩ := hd
      exact (h s hs).2.2
    case hls => simp
    rw [List.filter_eq_self.2 ?keep]
    case keep =>
      intro d hd
      simp only [List.mem_map] at hd
      obtain ⟨s, hs, rfl⟩ := hd
      obtain ⟨ht, hne', _⟩ := h s hs
      simp [ht, hne']
    rw [List.map_map]
    have heach : ∀ s ∈ (s1 :: s2 :: t),
        ((fun line => (⟨trimChars line⟩ : Service)) ∘ (·.description)) s = id s := by
      intro s hs
      have ht := (h s hs).1
      cases s
      simp only [Function.comp, id]
      simp [ht]
    rw [List.map_congr_left heach, List.map_id]

/-- The services and serviceRequested fields stored by a validated
createWorkOrder are the ones produced by its normalization step. -/
theorem createWorkOrder_stored (db : DB) (req : CreateReq) (today : Nat)
    (v : Vehicle) (c : Customer)
    (hv : db.findVehicle req.vehicle = some v)
    (hc : db.findCustomer req.customer = some c)
    (hown : v.customer = c.id)
    (hfresh : db.findWorkOrder db.nextId = none) :
    ((createWorkOrder db req today).db.findWorkOrder db.nextId).map
        (fun w => (w.services, w.serviceRequested)) =
      some ((normalizeServicesCreate req.services req.serviceRequested).1,
        ((normalizeServicesCreate req.services req.serviceRequested).2).getD []) := by
  have hno : ¬ v.customer ≠ c.id := by simp [hown]
  unfold createWorkOrder
  rw [hv, hc]
  simp [hno, DB.saveVehicle, DB.findWorkOrder]
  rw [findDoc_append_last _ db.workOrders _ hfresh (by simp)]
  simp

/-- The services and serviceRequested fields stored by updateWorkOrder on
an existing work order are the normalized ones, falling back to the stored
fields when absent. -/
theorem updateWorkOrder_stored_services (db : DB) (woId : Nat) (ureq : UpdateReq)
    (today : Nat) (fails : Bool) (wo : WorkOrder)
    (hfind : db.findWorkOrder woId = some wo) :
    ((updateWorkOrder db woId ureq today fails).db.findWorkOrder woId).map
        (fun w => (w.services, w.serviceRequested)) =
      some (((normalizeServicesUpdate ureq.services ureq.serviceRequested).1).getD wo.services,
        ((normalizeServicesUpdate ureq.services ureq.serviceRequested).2).getD
          wo.serviceRequested) := by
  cases htot : updateTotals db woId ureq.parts ureq.labor ureq.totalEstimate with
  | error e => exact absurd (updateTotals_error htot) (by simp [hfind])
  | ok pr =>
    obtain ⟨te?, tr1⟩ := pr
    have hfind1 : (updateMileage db woId ureq.currentMileage ureq.date today).1.findWorkOrder
        woId = some wo := by
      rw [updateMileage_findWorkOrder]
      exact hfind
    unfold updateWorkOrder
    rw [htot]
    simp only []
    rw [hfind1]
    have hsave := findWorkOrder_save
      (updateMileage db woId ureq.currentMileage ureq.date today).1 woId wo
      (applyUpdateData wo ureq.status
        (normalizeServicesUpdate ureq.services ureq.serviceRequested).1
        (normalizeServicesUpdate ureq.services ureq.serviceRequested).2
        ureq.parts ureq.labor te? ureq.date) hfind1 rfl
    simp [hsave]
    simp [applyUpdateData]

/-- Claim C7 (corrected): a non-empty services array is stored together
with the newline-join of its descriptions as serviceRequested, on create
and on update; when only a serviceRequested string is supplied — on create
or on update — the stored services array is one entry per trimmed
non-empty line when the string contains a newline, and otherwise the
single raw string; splitting the generated serviceRequested recovers the
descriptions whenever each one is trimmed, non-empty and newline-free. -/
theorem services_serviceRequested_sync (db : DB) (req : CreateReq) (ureq : UpdateReq)
    (woId today : Nat) (fails : Bool) :
    (∀ v c l, db.findVehicle req.vehicle = some v → db.findCustomer req.customer = some c →
      v.customer = c.id → db.findWorkOrder db.nextId = none →
      req.services = some l → l ≠ [] →
      ((createWorkOrder db req today).db.findWorkOrder db.nextId).map
          (fun w => (w.services, w.serviceRequested)) = some (l, joinDescriptions l))
    ∧ (∀ v c sr, db.findVehicle req.vehicle = some v → db.findCustomer req.customer = some c →
      v.customer = c.id → db.findWorkOrder db.nextId = none →
      (req.services = none ∨ req.services = some []) → req.serviceRequested = some sr →
      sr ≠ [] →
      ((createWorkOrder db req today).db.findWorkOrder db.nextId).map (·.services) =
        some (if ('\n' : Char) ∈ sr then splitServiceRequested sr else [⟨sr⟩]))
    ∧ (∀ wo l, db.findWorkOrder woId = some wo → ureq.services = some l → l ≠ [] →
      ((updateWorkOrder db woId ureq today fails).db.findWorkOrder woId).map
          (fun w => (w.services, w.serviceRequested)) = some (l, joinDescriptions l))
    ∧ (∀ wo sr, db.findWorkOrder woId = some wo → ureq.services = none →
      ureq.serviceRequested = some sr → sr ≠ [] →
      ((updateWorkOrder db woId ureq today fails).db.findWorkOrder woId).map
          (fun w => (w.services, w.serviceRequested)) =
        some ((if ('\n' : Char) ∈ sr then splitServiceRequested sr else [⟨sr⟩]), sr))
    ∧ (∀ l : List Service, l ≠ [] →
      (∀ s ∈ l, trimChars s.description = s.description ∧ s.description ≠ [] ∧
        ('\n' : Char) ∉ s.description) →
      requestedToServices (joinDescriptions l) = l) := by
  refine ⟨?_, ?_, ?_, ?_, requestedToServices_joinDescriptions⟩
  · intro v c l hv hc hown hfresh hserv hne
    rw [createWorkOrder_stored db req today v c hv hc hown hfresh]
    simp [normalizeServicesCreate, hserv, hne]
  · intro v c sr hv hc hown hfresh hserv hsr hne
    have hp := createWorkOrder_stored db req today v c hv hc hown hfresh
    have hsv : ((createWorkOrder db req today).db.findWorkOrder db.nextId).map (·.services) =
        some (normalizeServicesCreate req.services req.serviceRequested).1 := by
      cases hw : (createWorkOrder db req today).db.findWorkOrder db.nextId with
      | none => rw [hw] at hp; simp at hp
      | some w =>
        rw [hw] at hp
        simp only [Option.map_some', Option.some.injEq, Prod.mk.injEq] at hp
        simp [hp.1]
    rw [hsv]
    rcases hserv with hserv | hserv <;>
      simp [normalizeServicesCreate, requestedToServices, hserv, hsr, hne]
  · intro wo l hfind hserv hne
    rw [updateWorkOrder_stored_services db woId ureq today fails wo hfind]
    simp [normalizeServicesUpdate, hserv]
  · intro wo sr hfind hserv hsr hne
    rw [updateWorkOrder_stored_services db woId ureq today fails wo hfind]
    simp [normalizeServicesUpdate, requestedToServices, hserv, hsr, hne]

/-- Counterexample to C7: when the only supplied field is the single-line
serviceRequested string with surrounding spaces, the stored services array
keeps the raw untrimmed string, not the trimmed line the claim requires. -/
theorem create_serviceRequested_untrimmed :
    ((createWorkOrder sampleDB untrimmedCreateReq 0).db.findWorkOrder 4).map (·.services) =
      some [⟨" a ".data⟩]
    ∧ trimChars (" a ".data) = "a".data
    ∧ (" a ".data ≠ "a".data) := by
  refine ⟨?_, by decide, by decide⟩
  decide

/-- Witness for C7: the round trip recovers two concrete services, and the
update handler stores the join for a concrete services array. -/
theorem services_serviceRequested_sync_witness :
    requestedToServices (joinDescriptions [⟨"ab".data⟩, ⟨"c".data⟩]) =
      [⟨"ab".data⟩, ⟨"c".data⟩] :=
  (services_serviceRequested_sync sampleDB plainCreateReq plainUpdateReq 3 0 false).2.2.2.2
    [⟨"ab".data⟩, ⟨"c".data⟩] (by decide) (by decide)

end PhoenixCRM
